import Mathlib

/-!
Shallow embedding of the treatment-plan / dental-chart core of DentistFriend
(`app/pages/1_Treatment.py` and `app/utils.py`), together with proofs of the
specification's testable properties about it.

Monetary values are modelled as rationals, Python dicts as association lists
(insertion-ordered, unique keys at the points the code relies on it), and the
`"%Y-%m-%d"` date strings as Gregorian calendar dates with day-count
arithmetic mirroring `datetime + timedelta(days=n)`.
-/

namespace DentistFriend

/-- Calendar date, the content of the `"%Y-%m-%d"` strings stored in treatment
records (`Start Date`, `End Date`). -/
structure Date where
  year : Int
  month : Int
  day : Int
deriving DecidableEq, Repr

/-- Day count of a Gregorian civil date relative to 1970-01-01, the standard
civil-from-days correspondence underlying `datetime.date` ordinal arithmetic. -/
def Date.toDays (d : Date) : Int :=
  let y : Int := if d.month ≤ 2 then d.year - 1 else d.year
  let era : Int := y.ediv 400
  let yoe : Int := y - era * 400
  let mp : Int := (d.month + 9).emod 12
  let doy : Int := (153 * mp + 2).ediv 5 + d.day - 1
  let doe : Int := yoe * 365 + yoe.ediv 4 - yoe.ediv 100 + doy
  era * 146097 + doe - 719468

/-- Gregorian civil date of a day count relative to 1970-01-01 (inverse
direction of `Date.toDays`). -/
def Date.ofDays (z0 : Int) : Date :=
  let z : Int := z0 + 719468
  let era : Int := z.ediv 146097
  let doe : Int := z - era * 146097
  let yoe : Int := (doe - doe.ediv 1460 + doe.ediv 36524 - doe.ediv 146096).ediv 365
  let y : Int := yoe + era * 400
  let doy : Int := doe - (365 * yoe + yoe.ediv 4 - yoe.ediv 100)
  let mp : Int := (5 * doy + 2).ediv 153
  let dd : Int := doy - (153 * mp + 2).ediv 5 + 1
  let mm : Int := if mp < 10 then mp + 3 else mp - 9
  { year := if mm ≤ 2 then y + 1 else y, month := mm, day := dd }

/-- Date plus a number of days: `date + timedelta(days=n)`. -/
def Date.addDays (d : Date) (n : Int) : Date :=
  Date.ofDays (d.toDays + n)

/-- Procedure status: the three options offered by the management form's
status selector (`"Pending"`, `"In Progress"`, `"Completed"`). -/
inductive Status where
  | pending
  | inProgress
  | completed
deriving DecidableEq, Repr

/-- One treatment-plan line item: the dictionary built in `1_Treatment.py`
with keys `Tooth`, `Procedure`, `Cost`, `Status`, `Duration`, `Start Date`
and `End Date`. -/
structure Entry where
  tooth : String
  procedure : String
  cost : ℚ
  status : Status
  duration : Int
  startDate : Date
  endDate : Date
deriving DecidableEq, Repr

/-- Python `price_estimates.get(name, dflt)` on the doctor's price table. -/
def priceGet (prices : List (String × ℚ)) (name : String) (dflt : ℚ) : ℚ :=
  (prices.lookup name).getD dflt

/-- Error reported by the add-procedure form ("This procedure already exists
for the selected tooth"); the record is left untouched when it fires. -/
inductive AddError where
  | duplicateProcedure
deriving DecidableEq, Repr

/-- Duplicate check of the add form (`1_Treatment.py` lines 273-275): the
`existing_procedures` list-comprehension filter is non-empty. -/
def duplicateExists (record : List Entry) (tooth proc : String) : Bool :=
  !(record.filter fun item => item.tooth == tooth && item.procedure == proc).isEmpty

/-- Submission handler of the "Add Procedure" form (`1_Treatment.py` lines
271-297): on a duplicate `(Tooth, Procedure)` pair the record is returned
unchanged with the error; otherwise a new entry is appended with status
`Pending`, cost `price_estimates.get(procedure, 0)`, start date `today`,
duration 7 and end date `today + timedelta(days=7)`. -/
def submitAdd (prices : List (String × ℚ)) (today : Date) (record : List Entry)
    (tooth proc : String) : List Entry × Option AddError :=
  if duplicateExists record tooth proc then
    (record, some AddError.duplicateProcedure)
  else
    (record ++ [{ tooth := tooth
                , procedure := proc
                , cost := priceGet prices proc 0
                , status := Status.pending
                , duration := 7
                , startDate := today
                , endDate := today.addDays 7 }], none)

/-- Effective chart computed tooth-by-tooth by `render_chart`
(`app/utils.py` lines 341-350): for every tooth of the canonical layout the
displayed condition is `dental_chart.get(tooth_number, "Healthy")`. -/
def reconcile (canonical : List String) (chart : List (String × String)) :
    List (String × String) :=
  canonical.map fun tooth => (tooth, (chart.lookup tooth).getD "Healthy")

/-- Python dict assignment `chart[tooth] = cond`: overwrite in place when the
key exists, append otherwise (dicts preserve insertion order). -/
def setKey : List (String × String) → String → String → List (String × String)
  | [], tooth, cond => [(tooth, cond)]
  | (k, v) :: rest, tooth, cond =>
      if k == tooth then (k, cond) :: rest else (k, v) :: setKey rest tooth cond

/-- Change tracking of `render_chart` for one tooth (`app/utils.py` lines
393-396): `if tooth not in chart or chart[tooth] != selected:` write the
selection and report a change, else leave the chart and report none. -/
def applySelection (chart : List (String × String)) (tooth cond : String) :
    List (String × String) × Bool :=
  match chart.lookup tooth with
  | none => (setKey chart tooth cond, true)
  | some current =>
      if current ≠ cond then (setKey chart tooth cond, true) else (chart, false)

/-- Per-row inputs of the treatment-management form (`1_Treatment.py` lines
328-396): the procedure/status/start-date/duration widgets and the delete
selector (`"✗"`) of one row. -/
structure RowForm where
  newProcedure : String
  newStatus : Status
  newStart : Date
  newDuration : Int
  del : Bool
deriving DecidableEq, Repr

/-- Row update of the management submission (`1_Treatment.py` lines 409-437):
`Tooth` is copied from the original item, the price is re-looked-up with
`price_estimates.get(new_procedure, item["Cost"])` only when the procedure
name changed, and `End Date` is recomputed as start plus duration. -/
def applyRow (prices : List (String × ℚ)) (item : Entry) (form : RowForm) : Entry :=
  { tooth := item.tooth
  , procedure := form.newProcedure
  , cost := if form.newProcedure ≠ item.procedure
      then priceGet prices form.newProcedure item.cost else item.cost
  , status := form.newStatus
  , duration := form.newDuration
  , startDate := form.newStart
  , endDate := form.newStart.addDays form.newDuration }

/-- Whole-list replacement built by the management submission loop
(`1_Treatment.py` lines 401-444): rows marked for deletion are skipped
(`continue`), every other row is rebuilt by `applyRow`, and the resulting
list replaces the treatment record wholesale. No validation runs on it. -/
def updateBatch (prices : List (String × ℚ)) (rows : List (Entry × RowForm)) :
    List Entry :=
  (rows.filter fun row => !row.2.del).map fun row => applyRow prices row.1 row.2

/-- Displayed cost summary (`1_Treatment.py` lines 505-524). -/
structure Summary where
  total : ℚ
  discount : ℚ
  tax : ℚ
  final : ℚ
deriving DecidableEq, Repr

/-- Cost-summary computation of `1_Treatment.py` lines 505-513:
`total_price = sum(item["Cost"] ...)`, `tax = total * 0.15` when the VAT
checkbox is on else `0`, `discount = min(discount_amount, total_price)`,
`final = total - discount + tax`. The VAT rate `0.15` is the exact rational
15/100 here. -/
def computeSummary (record : List Entry) (discountAmount : ℚ) (taxApply : Bool) :
    Summary :=
  let totalPrice : ℚ := (record.map Entry.cost).sum
  let taxCalculation : ℚ := if taxApply then totalPrice * (15 / 100) else 0
  let discountCalculation : ℚ := min discountAmount totalPrice
  { total := totalPrice
  , discount := discountCalculation
  , tax := taxCalculation
  , final := totalPrice - discountCalculation + taxCalculation }

/-- Dynamically-typed Python value as it flows into `generate_pdf`: a number,
a string (an X-ray file path in the flow modelled here, never a numeric
string), or `None`. -/
inductive PyVal where
  | num (value : ℚ)
  | str (value : String)
  | none
deriving DecidableEq, Repr

/-- Python `isinstance(x, (int, float))`. -/
def PyVal.isNum : PyVal → Bool
  | PyVal.num _ => true
  | _ => false

/-- Python subtraction, raising `TypeError` unless both operands are numbers. -/
def pySub : PyVal → PyVal → Except String PyVal
  | PyVal.num a, PyVal.num b => Except.ok (PyVal.num (a - b))
  | _, _ => Except.error "TypeError"

/-- Python addition on these values, raising `TypeError` unless both operands
are numbers. -/
def pyAdd : PyVal → PyVal → Except String PyVal
  | PyVal.num a, PyVal.num b => Except.ok (PyVal.num (a + b))
  | _, _ => Except.error "TypeError"

/-- Python `float(x)` as used on the cost rows: a number converts, `None`
raises `TypeError`, and a (file-path, non-numeric) string raises
`ValueError`. -/
def pyFloat : PyVal → Except String ℚ
  | PyVal.num q => Except.ok q
  | PyVal.str _ => Except.error "ValueError"
  | PyVal.none => Except.error "TypeError"

/-- Cost-summary portion of `generate_pdf` (`app/utils.py` lines 199-231):
`final_cost = total_cost`, then `final_cost -= discount` when `discount` is
numeric, then `final_cost += vat` when `vat` is numeric; afterwards the table
renders `float(total_cost)` and `float(final_cost)`. Returns the final total
rendered into the report, or the first Python exception raised. -/
def generatePdfFinal (discount vat totalCost : PyVal) : Except String ℚ := do
  let afterDiscount ← if discount.isNum then pySub totalCost discount else pure totalCost
  let afterVat ← if vat.isNum then pyAdd afterDiscount vat else pure afterDiscount
  let _ ← pyFloat totalCost
  pyFloat afterVat

/-- The report-generation call of `1_Treatment.py` lines 539-547: the
arguments `(discount_calculation, tax_calculation, total_price, image_path)`
are passed positionally after doctor/patient/plan, so against the signature
`generate_pdf(doctor_name, patient_name, treatment_plan, currency_symbol,
discount, vat, total_cost, xray_images)` the discount lands in
`currency_symbol` (unused by the cost math), the tax in `discount`, the total
in `vat`, and the X-ray path in `total_cost`. -/
def reportFinalCost (_discountCalculation taxCalculation totalPrice : ℚ)
    (imagePath : PyVal) : Except String ℚ :=
  generatePdfFinal (PyVal.num taxCalculation) (PyVal.num totalPrice) imagePath

/-- Sample entry: Scenario A's cleaning on tooth 11 at cost 100, start
2024-01-01, duration 7, end 2024-01-08. -/
def sampleCleaning : Entry :=
  { tooth := "11", procedure := "Cleaning", cost := 100, status := Status.pending
  , duration := 7, startDate := ⟨2024, 1, 1⟩, endDate := ⟨2024, 1, 8⟩ }

/-- Sample entry: a filling on the same tooth 11, used to exhibit the
duplicate-pair collision in the batch update. -/
def sampleFilling : Entry :=
  { tooth := "11", procedure := "Filling", cost := 150, status := Status.pending
  , duration := 7, startDate := ⟨2024, 1, 1⟩, endDate := ⟨2024, 1, 8⟩ }

/-- Sample row form renaming a procedure to "Filling" while keeping the row. -/
def renameToFilling : RowForm :=
  { newProcedure := "Filling", newStatus := Status.pending
  , newStart := ⟨2024, 1, 1⟩, newDuration := 7, del := false }

/-- Sample row form keeping a "Filling" row unchanged. -/
def keepFilling : RowForm :=
  { newProcedure := "Filling", newStatus := Status.pending
  , newStart := ⟨2024, 1, 1⟩, newDuration := 7, del := false }

/-- Sample entry of cost 200 used for Scenario D of the cost summary. -/
def sampleRootCanal : Entry :=
  { tooth := "21", procedure := "Root Canal", cost := 200, status := Status.pending
  , duration := 7, startDate := ⟨2024, 1, 1⟩, endDate := ⟨2024, 1, 8⟩ }

/-- Writing a key with `setKey` makes a subsequent lookup of that key return
the written value. -/
theorem lookup_setKey_self (chart : List (String × String)) (tooth cond : String) :
    (setKey chart tooth cond).lookup tooth = some cond := by
  induction chart with
  | nil => simp [setKey, List.lookup]
  | cons p rest ih =>
      obtain ⟨k, v⟩ := p
      by_cases h : k = tooth
      · subst h
        simp [setKey, List.lookup]
      · have h2 : ¬tooth = k := fun hh => h hh.symm
        have h3 : (tooth == k) = false := beq_eq_false_iff_ne.mpr h2
        simp [setKey, List.lookup, h, h3, ih]

/-- C1: an add-procedure request whose `(tooth, procedure)` pair already
occurs in the record fails with the duplicate error and returns the record
unchanged (same entries, same order, same fields); when the pair is absent,
exactly one new entry with status `Pending` is appended. -/
theorem submitAdd_duplicate_or_append (prices : List (String × ℚ)) (today : Date)
    (record : List Entry) (tooth proc : String) :
    (duplicateExists record tooth proc = true →
      submitAdd prices today record tooth proc
        = (record, some AddError.duplicateProcedure)) ∧
    (duplicateExists record tooth proc = false →
      ∃ e : Entry, submitAdd prices today record tooth proc = (record ++ [e], none) ∧
        e.tooth = tooth ∧ e.procedure = proc ∧ e.status = Status.pending) := by
  constructor
  · intro h
    simp [submitAdd, h]
  · intro h
    refine ⟨{ tooth := tooth, procedure := proc, cost := priceGet prices proc 0
              , status := Status.pending, duration := 7, startDate := today
              , endDate := today.addDays 7 }, ?_, rfl, rfl, rfl⟩
    simp [submitAdd, h]

/-- Concrete run of C1: Scenario B, adding the `(11, Cleaning)` pair on top of
a record that already holds it is rejected and the record is unchanged, while
adding it to an empty record appends a `Pending` entry. -/
theorem submitAdd_duplicate_or_append_app :
    (duplicateExists [sampleCleaning] "11" "Cleaning" = true ∧
      submitAdd [("Cleaning", (100 : ℚ))] ⟨2024, 1, 1⟩ [sampleCleaning] "11" "Cleaning"
        = ([sampleCleaning], some AddError.duplicateProcedure)) ∧
    (duplicateExists [] "11" "Cleaning" = false ∧
      ∃ e : Entry,
        submitAdd [("Cleaning", (100 : ℚ))] ⟨2024, 1, 1⟩ [] "11" "Cleaning"
          = ([] ++ [e], none) ∧
        e.tooth = "11" ∧ e.procedure = "Cleaning" ∧ e.status = Status.pending) := by
  refine ⟨⟨by decide, ?_⟩, ⟨by decide, ?_⟩⟩
  · exact (submitAdd_duplicate_or_append [("Cleaning", (100 : ℚ))] ⟨2024, 1, 1⟩
      [sampleCleaning] "11" "Cleaning").1 (by decide)
  · exact (submitAdd_duplicate_or_append [("Cleaning", (100 : ℚ))] ⟨2024, 1, 1⟩
      [] "11" "Cleaning").2 (by decide)

/-- C9: every successful add fixes the schedule at creation time: start date
is today's date, duration is exactly 7 days, and end date is today plus 7
days; the add handler takes no caller-supplied start date or duration. -/
theorem submitAdd_default_schedule (prices : List (String × ℚ)) (today : Date)
    (record : List Entry) (tooth proc : String)
    (h : duplicateExists record tooth proc = false) :
    ∃ e : Entry, submitAdd prices today record tooth proc = (record ++ [e], none) ∧
      e.startDate = today ∧ e.duration = 7 ∧ e.endDate = today.addDays 7 := by
  refine ⟨{ tooth := tooth, procedure := proc, cost := priceGet prices proc 0
              , status := Status.pending, duration := 7, startDate := today
              , endDate := today.addDays 7 }, ?_, rfl, rfl, rfl⟩
  simp [submitAdd, h]

/-- Concrete run of C9: adding on 2024-01-01 yields start 2024-01-01,
duration 7 and end 2024-01-08. -/
theorem submitAdd_default_schedule_app :
    (duplicateExists [] "11" "Cleaning" = false) ∧
    (∃ e : Entry,
      submitAdd [("Cleaning", (100 : ℚ))] ⟨2024, 1, 1⟩ [] "11" "Cleaning"
        = ([] ++ [e], none) ∧
      e.startDate = ⟨2024, 1, 1⟩ ∧ e.duration = 7 ∧
        e.endDate = Date.addDays ⟨2024, 1, 1⟩ 7) ∧
    Date.addDays ⟨2024, 1, 1⟩ 7 = ⟨2024, 1, 8⟩ := by
  refine ⟨by decide, ?_, by decide⟩
  exact submitAdd_default_schedule [("Cleaning", (100 : ℚ))] ⟨2024, 1, 1⟩
    [] "11" "Cleaning" (by decide)

/-- C4: immediately after a successful add or after a row update, the entry's
end date equals its start date plus its duration in days. -/
theorem endDate_after_add_or_update (prices : List (String × ℚ)) (today : Date)
    (record : List Entry) (tooth proc : String) :
    (duplicateExists record tooth proc = false →
      ∃ e : Entry, submitAdd prices today record tooth proc = (record ++ [e], none) ∧
        e.endDate = e.startDate.addDays e.duration) ∧
    (∀ (item : Entry) (form : RowForm),
      (applyRow prices item form).endDate
        = (applyRow prices item form).startDate.addDays
            (applyRow prices item form).duration) := by
  constructor
  · intro h
    refine ⟨{ tooth := tooth, procedure := proc, cost := priceGet prices proc 0
              , status := Status.pending, duration := 7, startDate := today
              , endDate := today.addDays 7 }, ?_, ?_⟩
    · simp [submitAdd, h]
    · rfl
  · intro item form
    rfl

/-- Concrete run of C4: Scenario A, adding with start 2024-01-01 and duration
7 yields end date 2024-01-08. -/
theorem endDate_after_add_or_update_app :
    (duplicateExists [] "11" "Cleaning" = false) ∧
    (∃ e : Entry,
      submitAdd [("Cleaning", (100 : ℚ))] ⟨2024, 1, 1⟩ [] "11" "Cleaning"
        = ([] ++ [e], none) ∧
      e.endDate = e.startDate.addDays e.duration) ∧
    Date.addDays ⟨2024, 1, 1⟩ 7 = ⟨2024, 1, 8⟩ := by
  refine ⟨by decide, ?_, by decide⟩
  exact (endDate_after_add_or_update [("Cleaning", (100 : ℚ))] ⟨2024, 1, 1⟩
    [] "11" "Cleaning").1 (by decide)

/-- C10: the batch treatment-management update never changes the tooth of a
surviving entry: the tooth column of the updated list is exactly the tooth
column of the surviving original rows, in order. -/
theorem updateBatch_preserves_tooth (prices : List (String × ℚ))
    (rows : List (Entry × RowForm)) :
    (updateBatch prices rows).map Entry.tooth
      = ((rows.filter fun row => !row.2.del).map fun row => row.1.tooth) := by
  simp only [updateBatch, List.map_map]
  rfl

/-- C7: a row update whose procedure name changed re-looks-up the unit price
from the doctor's price table for the new name (the management form offers no
explicit price override); an unchanged procedure name keeps the stored cost. -/
theorem applyRow_price (prices : List (String × ℚ)) (item : Entry) (form : RowForm) :
    (∀ p : ℚ, form.newProcedure ≠ item.procedure →
      prices.lookup form.newProcedure = some p →
        (applyRow prices item form).cost = p) ∧
    (form.newProcedure = item.procedure →
      (applyRow prices item form).cost = item.cost) := by
  constructor
  · intro p hne hl
    simp [applyRow, hne, priceGet, hl]
  · intro he
    simp [applyRow, he]

/-- Concrete run of C7: renaming the cleaning on tooth 11 to a filling picks
up the filling's configured price 150; keeping the name keeps cost 100. -/
theorem applyRow_price_app :
    ("Filling" ≠ sampleCleaning.procedure ∧
      [("Filling", (150 : ℚ))].lookup "Filling" = some 150 ∧
      (applyRow [("Filling", (150 : ℚ))] sampleCleaning renameToFilling).cost = 150) ∧
    ((applyRow [] sampleCleaning
        { renameToFilling with newProcedure := "Cleaning" }).cost
      = sampleCleaning.cost) := by
  refine ⟨⟨by decide, by decide, ?_⟩, ?_⟩
  · exact (applyRow_price [("Filling", (150 : ℚ))] sampleCleaning renameToFilling).1
      150 (by decide) (by decide)
  · exact (applyRow_price [] sampleCleaning
      { renameToFilling with newProcedure := "Cleaning" }).2 rfl

/-- C2: the cost summary's total is the sum of the stored entry costs, the
discount is the input clamped to the total (hence between 0 and the total for
non-negative inputs over non-negatively priced entries, even when the input
exceeds the total), the tax is total times 15/100 exactly when the VAT toggle
is on and 0 otherwise, and the final amount is total minus discount plus tax
exactly. -/
theorem computeSummary_spec (record : List Entry) (discountAmount : ℚ)
    (taxApply : Bool) (s : Summary)
    (hs : s = computeSummary record discountAmount taxApply)
    (hd : 0 ≤ discountAmount) (hc : ∀ e ∈ record, 0 ≤ e.cost) :
    s.total = (record.map Entry.cost).sum ∧
    s.discount = min discountAmount s.total ∧
    0 ≤ s.discount ∧ s.discount ≤ s.total ∧
    (s.tax = if taxApply then s.total * (15 / 100) else 0) ∧
    s.final = s.total - s.discount + s.tax := by
  subst hs
  have htot : 0 ≤ (record.map Entry.cost).sum := by
    refine List.sum_nonneg ?_
    intro x hx
    obtain ⟨e, he, rfl⟩ := List.mem_map.mp hx
    exact hc e he
  exact ⟨rfl, rfl, le_min hd htot, min_le_right _ _, rfl, rfl⟩

/-- Concrete run of C2: Scenario D, one entry of cost 200 with VAT on and
discount input 50 gives tax 30 and final 180; with discount input 400 the
discount clamps to 200 and stays between 0 and the total. -/
theorem computeSummary_spec_app :
    ((0 : ℚ) ≤ 50 ∧ (∀ e ∈ [sampleRootCanal], 0 ≤ e.cost) ∧
      (computeSummary [sampleRootCanal] 50 true).tax = 30 ∧
      (computeSummary [sampleRootCanal] 50 true).final = 180 ∧
      (computeSummary [sampleRootCanal] 50 true).final
        = (computeSummary [sampleRootCanal] 50 true).total
            - (computeSummary [sampleRootCanal] 50 true).discount
            + (computeSummary [sampleRootCanal] 50 true).tax) ∧
    (0 ≤ (computeSummary [sampleRootCanal] 400 true).discount ∧
      (computeSummary [sampleRootCanal] 400 true).discount
        ≤ (computeSummary [sampleRootCanal] 400 true).total ∧
      (computeSummary [sampleRootCanal] 400 true).discount = 200) := by
  have h400 := computeSummary_spec [sampleRootCanal] 400 true _ rfl (by norm_num)
    (by intro e he; simp only [List.mem_singleton] at he; subst he; norm_num [sampleRootCanal])
  have h50 := computeSummary_spec [sampleRootCanal] 50 true _ rfl (by norm_num)
    (by intro e he; simp only [List.mem_singleton] at he; subst he; norm_num [sampleRootCanal])
  refine ⟨⟨by norm_num, ?_,
      by norm_num [computeSummary, sampleRootCanal],
      by norm_num [computeSummary, sampleRootCanal, min_def],
      h50.2.2.2.2.2⟩,
    h400.2.2.1, h400.2.2.2.1,
    by norm_num [computeSummary, sampleRootCanal, min_def]⟩
  intro e he
  simp only [List.mem_singleton] at he
  subst he
  norm_num [sampleRootCanal]

/-- C3: the reconciled effective chart lists exactly the canonical teeth, in
canonical order, and every canonical tooth is mapped to the persisted
condition when present and to "Healthy" when absent. -/
theorem reconcile_spec (canonical : List String) (chart : List (String × String)) :
    (reconcile canonical chart).map Prod.fst = canonical ∧
    ∀ tooth ∈ canonical,
      (reconcile canonical chart).lookup tooth
        = some ((chart.lookup tooth).getD "Healthy") := by
  constructor
  · simp [reconcile, Function.comp_def]
  · intro tooth ht
    induction canonical with
    | nil => cases ht
    | cons a rest ih =>
        by_cases hat : a = tooth
        · subst hat
          simp [reconcile, List.lookup]
        · have h3 : (tooth == a) = false :=
            beq_eq_false_iff_ne.mpr fun hh => hat hh.symm
          have ht' : tooth ∈ rest := by
            rcases List.mem_cons.mp ht with h | h
            · exact absurd h.symm hat
            · exact h
          simpa [reconcile, List.lookup, h3] using ih ht'

/-- Concrete run of C3: Scenario E, canonical teeth 11 and 12 with persisted
chart mapping 11 to "Cavity" reconcile to 11 ↦ "Cavity", 12 ↦ "Healthy". -/
theorem reconcile_spec_app :
    reconcile ["11", "12"] [("11", "Cavity")]
      = [("11", "Cavity"), ("12", "Healthy")] ∧
    ("12" ∈ ["11", "12"] ∧
      (reconcile ["11", "12"] [("11", "Cavity")]).lookup "12"
        = some ((([("11", "Cavity")] : List (String × String)).lookup "12").getD
            "Healthy")) := by
  refine ⟨by decide, by decide, ?_⟩
  exact (reconcile_spec ["11", "12"] [("11", "Cavity")]).2 "12" (by decide)

/-- C6 counterexample: on a tooth absent from the persisted chart, selecting
"Healthy" — exactly the tooth's defaulted current condition — still reports a
change, so a selection equal to the (defaulted) current condition can set the
changed flag. -/
theorem applySelection_default_marks_changed :
    ((([] : List (String × String)).lookup "11").getD "Healthy" = "Healthy") ∧
    (applySelection [] "11" "Healthy").2 = true := by
  exact ⟨rfl, rfl⟩

/-- C6 amended: applying the same selection twice is idempotent (the second
application reports no change), and a selection equal to the current condition
of a tooth present in the chart reports no change and leaves the chart as is;
but a selection on a tooth absent from the chart always reports a change,
even when it equals the defaulted "Healthy" condition. -/
theorem applySelection_idempotent (chart : List (String × String))
    (tooth cond : String) :
    (applySelection (applySelection chart tooth cond).1 tooth cond).2 = false ∧
    (chart.lookup tooth = some cond →
      applySelection chart tooth cond = (chart, false)) ∧
    (chart.lookup tooth = none → (applySelection chart tooth cond).2 = true) := by
  refine ⟨?_, ?_, ?_⟩
  · rcases hl : chart.lookup tooth with _ | c
    · simp [applySelection, hl, lookup_setKey_self]
    · by_cases hc : c = cond
      · subst hc
        simp [applySelection, hl]
      · simp [applySelection, hl, hc, lookup_setKey_self]
  · intro h
    simp [applySelection, h]
  · intro h
    simp [applySelection, h]

/-- Concrete run of C6 amended: selecting "Cavity" for tooth 11 twice reports
a change only the first time; re-selecting the stored "Cavity" reports none. -/
theorem applySelection_idempotent_app :
    (applySelection (applySelection [] "11" "Cavity").1 "11" "Cavity").2 = false ∧
    (([("11", "Cavity")] : List (String × String)).lookup "11" = some "Cavity" ∧
      applySelection [("11", "Cavity")] "11" "Cavity" = ([("11", "Cavity")], false)) ∧
    (([] : List (String × String)).lookup "11" = none ∧
      (applySelection [] "11" "Cavity").2 = true) := by
  refine ⟨(applySelection_idempotent [] "11" "Cavity").1,
    ⟨by decide, (applySelection_idempotent [("11", "Cavity")] "11" "Cavity").2.1
      (by decide)⟩,
    ⟨by decide, (applySelection_idempotent [] "11" "Cavity").2.2 (by decide)⟩⟩

/-- C5 counterexample: renaming the cleaning on tooth 11 to "Filling" while a
"Filling" on tooth 11 survives in the same batch is not rejected — the batch
produces, and hands to persistence, a list holding the pair (11, Filling)
twice. -/
theorem updateBatch_duplicate_persisted :
    updateBatch [] [(sampleCleaning, renameToFilling), (sampleFilling, keepFilling)]
      = [{ tooth := "11", procedure := "Filling", cost := 100
         , status := Status.pending, duration := 7, startDate := ⟨2024, 1, 1⟩
         , endDate := ⟨2024, 1, 8⟩ },
         { tooth := "11", procedure := "Filling", cost := 150
         , status := Status.pending, duration := 7, startDate := ⟨2024, 1, 1⟩
         , endDate := ⟨2024, 1, 8⟩ }] := by
  decide

/-- C5 amended: the batch treatment-management update performs no duplicate
validation at all: whenever two surviving rows end up with the same tooth and
the same (possibly renamed) procedure, the update succeeds and yields both
entries with an identical (tooth, procedure) pair — there is no error path in
the batch flow. -/
theorem updateBatch_rename_collision (prices : List (String × ℚ))
    (item1 item2 : Entry) (form1 form2 : RowForm)
    (ht : item1.tooth = item2.tooth) (hp : form1.newProcedure = form2.newProcedure)
    (h1 : form1.del = false) (h2 : form2.del = false) :
    ∃ a b : Entry,
      updateBatch prices [(item1, form1), (item2, form2)] = [a, b] ∧
      a.tooth = b.tooth ∧ a.procedure = b.procedure := by
  refine ⟨applyRow prices item1 form1, applyRow prices item2 form2, ?_, ?_, ?_⟩
  · simp [updateBatch, h1, h2]
  · simpa [applyRow] using ht
  · simpa [applyRow] using hp

/-- Concrete run of C5 amended: the rename collision on tooth 11 between
"Cleaning"→"Filling" and the existing "Filling" yields two surviving entries
with equal tooth and equal procedure. -/
theorem updateBatch_rename_collision_app :
    (sampleCleaning.tooth = sampleFilling.tooth ∧
      renameToFilling.newProcedure = keepFilling.newProcedure ∧
      renameToFilling.del = false ∧ keepFilling.del = false) ∧
    ∃ a b : Entry,
      updateBatch [] [(sampleCleaning, renameToFilling), (sampleFilling, keepFilling)]
        = [a, b] ∧
      a.tooth = b.tooth ∧ a.procedure = b.procedure := by
  refine ⟨⟨rfl, rfl, rfl, rfl⟩, ?_⟩
  exact updateBatch_rename_collision [] sampleCleaning sampleFilling
    renameToFilling keepFilling rfl rfl rfl rfl

/-- C8: at the failing input (discount 50, tax 30, total 200, no X-ray, so
`image_path = None`) the positional report call crashes with a `TypeError`
instead of producing a report whose final total is total − discount + tax;
the same happens with an uploaded X-ray path; by contrast the generator,
bound with numbers as its parameter names direct, does return
total − discount + vat. -/
theorem reportFinalCost_misbound :
    reportFinalCost 50 30 200 PyVal.none = Except.error "TypeError" ∧
    reportFinalCost 50 30 200 (PyVal.str "xray_unknown.jpg")
      = Except.error "TypeError" ∧
    (∀ discount vat totalCost : ℚ,
      generatePdfFinal (PyVal.num discount) (PyVal.num vat) (PyVal.num totalCost)
        = Except.ok (totalCost - discount + vat)) := by
  refine ⟨rfl, rfl, ?_⟩
  intro discount vat totalCost
  rfl

end DentistFriend
